import Mathlib

/-!
Verification development for the omniFlix block indexer.

The Go sources are shallowly embedded: the network and the database are an
explicit environment value, every HTTP response is a `Fetch`, JSON documents
are the inductive `Json`, Go errors built with fmt.Errorf are the inductive
`GoErr` (with `wrap` for the %w form), and each indexer method becomes a pure
Lean function from the environment to its result together with the list of
upstream calls it issued and the list of upsert statements it handed to the
database. Go `time.Time` values are modelled as integers, `sql.NullTime` and
nil `json.RawMessage` as `Option`.
-/

namespace OmniFlix

/-- Decoded JSON value, as produced by Go json.Decoder into interface values.
Numbers are modelled as integers; no claim inspects a numeric JSON leaf. -/
inductive Json where
  | null
  | bool (b : Bool)
  | num (n : Int)
  | str (s : String)
  | arr (xs : List Json)
  | obj (fields : List (String × Json))

/-- A decoded JSON object, i.e. the Go value of type map of string to interface.
Keys are assumed distinct, as a Go map obtained from a decoder always has. -/
abbrev JObj := List (String × Json)

/-- Go map indexing m[key]: the value when the key is present, none otherwise
(a JSON null stored under the key yields `some Json.null`: the key IS present). -/
def jlookup : JObj → String → Option Json
  | [], _ => none
  | (k, v) :: rest, key => if k = key then some v else jlookup rest key

/-- Go type assertion v.(map of string to interface) in its ok-form applied to an
optional value: succeeds exactly when the value is present and is an object. -/
def asObj : Option Json → Option JObj
  | some (.obj fields) => some fields
  | _ => none

/-- Go type assertion v.(string) in its ok-form applied to an optional value. -/
def asStr : Option Json → Option String
  | some (.str s) => some s
  | _ => none

/-- One HTTP response: the status code and the body; `body = none` models a body
that is not valid JSON (or not decodable into map of string to interface). -/
structure HttpResp where
  status : Nat
  body : Option Json

/-- Outcome of one HTTP GET: either a transport-level failure (http.Get returns
an error) or a delivered response. -/
inductive Fetch where
  | fail
  | resp (r : HttpResp)

/-- Decoding the response body with json.NewDecoder(...).Decode into a Go value
of type map of string to interface: succeeds exactly when the body is valid
JSON whose top level is an object. -/
def decodeObj : Option Json → Option JObj
  | some (.obj fields) => some fields
  | _ => none

/-- Go strconv.ParseInt digit run: all characters must be decimal digits and at
least one must be present. -/
def digitsToNat : List Char → Option Nat
  | [] => none
  | cs =>
    if cs.all Char.isDigit then
      some (cs.foldl (fun a c => a * 10 + (c.toNat - 48)) 0)
    else none

/-- Go strconv.ParseInt(s, 10, 64): optional sign, decimal digits, 64-bit
signed range check. -/
def parseIntStr (s : String) : Option Int :=
  match s.data with
  | '+' :: rest =>
    (digitsToNat rest).bind fun n =>
      if (n : Int) ≤ 2 ^ 63 - 1 then some (n : Int) else none
  | '-' :: rest =>
    (digitsToNat rest).bind fun n =>
      if (n : Int) ≤ 2 ^ 63 then some (-(n : Int)) else none
  | ds =>
    (digitsToNat ds).bind fun n =>
      if (n : Int) ≤ 2 ^ 63 - 1 then some (n : Int) else none

/-- One database row of the blocks table (schema in db.go: block_height primary
key, block_id, proposer_address, num_transactions, details, created_at,
updated_at, deleted_at). -/
structure Row where
  blockHeight : Int
  blockID : String
  proposer : String
  numTransactions : Int
  details : Option Json
  createdAt : Int
  updatedAt : Int
  deletedAt : Option Int

/-- The blocks table keyed by height: block_height is the primary key, so at
most one row per height. -/
abbrev Table := Int → Option Row

/-- Outcome of the point lookup issued by GetBlockDetails: a scanned row, the
distinguished sql.ErrNoRows outcome, or any other database error. -/
inductive LookupResult where
  | found (r : Row)
  | noRows
  | failure

/-- The external world as the indexer observes it: the four upstream endpoints
(status, REST latest-block, block_results per height, block per height) and the
database point lookup per height. -/
structure Env where
  status : Fetch
  latestBlock : Fetch
  blockResults : Int → Fetch
  block : Int → Fetch
  dbLookup : Int → LookupResult

/-- Go error values as built by the indexer: leaves for the primitive failure
causes and `wrap` for fmt.Errorf with a %w verb. `fieldMissing` tags the
fmt.Errorf messages reporting an absent or wrongly-typed JSON field, `msg` the
remaining plain fmt.Errorf messages. -/
inductive GoErr where
  | transport
  | badStatus (code : Nat)
  | decode
  | parseInt
  | sqlOther
  | fieldMissing (s : String)
  | msg (s : String)
  | wrap (s : String) (e : GoErr)

/-- Innermost cause of a chain of fmt.Errorf %w wraps. -/
def rootCause : GoErr → GoErr
  | .wrap _ e => rootCause e
  | e => e

/-- An error is a NetworkError (spec taxonomy) when its root cause is a
transport failure or a rejected HTTP status code. -/
def isNetworkError (e : GoErr) : Bool :=
  match rootCause e with
  | .transport => true
  | .badStatus _ => true
  | _ => false

/-- An error is a ParseError (spec taxonomy) when its root cause is a JSON
decode failure. -/
def isParseError (e : GoErr) : Bool :=
  match rootCause e with
  | .decode => true
  | _ => false

/-- An error is a FieldMissingError (spec taxonomy) when its root cause is an
absent or wrongly-typed JSON field, including a numeric-string height that
strconv.ParseInt rejects. -/
def isFieldMissingError (e : GoErr) : Bool :=
  match rootCause e with
  | .fieldMissing _ => true
  | .parseInt => true
  | _ => false

/-- Outcome of a Go call that can return a value, return an error, or panic
(a single-value type assertion on a value of the wrong shape panics). -/
inductive Res (α : Type) where
  | ok (a : α)
  | err (e : GoErr)
  | panicked

/-- One upstream HTTP call, recorded so that theorems can count them. -/
inductive UpCall where
  | statusCall
  | latestBlockCall
  | blockResultsCall (h : Int)
  | blockCall (h : Int)

/-- The indexer.BlockDetails struct. Go zero values: zero time is 0, invalid
NullTime is none, nil RawMessage is none. -/
structure BlockDetails where
  height : Int
  blockID : String
  numTransactions : Int
  proposer : String
  createdAt : Int
  updatedAt : Int
  deletedAt : Option Int
  details : Option Json

/-- The row-to-struct scan performed by GetBlockDetails on a database hit:
SELECT block_height, block_id, proposer_address, num_transactions, created_at,
updated_at, deleted_at, details, scanned field by field into BlockDetails. -/
def rowToDetails (r : Row) : BlockDetails :=
  { height := r.blockHeight
    blockID := r.blockID
    numTransactions := r.numTransactions
    proposer := r.proposer
    createdAt := r.createdAt
    updatedAt := r.updatedAt
    deletedAt := r.deletedAt
    details := r.details }

/-- Indexer.GetLatestBlockHeight (the /status endpoint). The HTTP status code
is never examined. The inner type assertion on the result field is
single-valued in the source, so an absent or non-object result field panics;
the outer ok-form assertion catches only a missing sync_info. -/
def GetLatestBlockHeight (e : Env) : Res Int × List UpCall :=
  ( match e.status with
    | .fail => .err (.wrap "error fetching status" .transport)
    | .resp r =>
      match decodeObj r.body with
      | none => .err (.wrap "error decoding status" .decode)
      | some result =>
        match asObj (jlookup result "result") with
        | none => .panicked
        | some res =>
          match asObj (jlookup res "sync_info") with
          | none => .err (.fieldMissing "sync_info not found in response")
          | some syncInfo =>
            match asStr (jlookup syncInfo "latest_block_height") with
            | none => .err (.fieldMissing "latest_block_height not found in response")
            | some s =>
              match parseIntStr s with
              | none => .err (.wrap "error parsing latest block height" .parseInt)
              | some h => .ok h,
    [.statusCall] )

/-- Indexer.GetLatestBlockHeightFromREST (the REST latest-block endpoint).
Unlike the status operation it rejects any non-200 HTTP status before reading
the body; every field access uses the ok-form, so it never panics. -/
def GetLatestBlockHeightFromREST (e : Env) : Res Int × List UpCall :=
  ( match e.latestBlock with
    | .fail => .err (.wrap "error fetching latest block from REST API" .transport)
    | .resp r =>
      if r.status ≠ 200 then .err (.badStatus r.status)
      else
        match decodeObj r.body with
        | none => .err (.wrap "error decoding latest block from REST API" .decode)
        | some result =>
          match asObj (jlookup result "block") with
          | none => .err (.fieldMissing "invalid REST API response: block field not found")
          | some block =>
            match asObj (jlookup block "header") with
            | none => .err (.fieldMissing "invalid REST API response: header field not found")
            | some header =>
              match asStr (jlookup header "height") with
              | none => .err (.fieldMissing "invalid REST API response: height field not found")
              | some s =>
                match parseIntStr s with
                | none => .err (.wrap "error parsing block height" .parseInt)
                | some h => .ok h,
    [.latestBlockCall] )

/-- Indexer.getBlock (the /block endpoint), extracting block hash and proposer.
The assertions on block_id, block and header are single-valued inner assertions
in the source, so a wrong shape there panics; only the final string assertions
use the ok-form. -/
def getBlock (e : Env) (height : Int) : Res BlockDetails × List UpCall :=
  ( match e.block height with
    | .fail => .err (.wrap "error fetching block from RPC" .transport)
    | .resp r =>
      match decodeObj r.body with
      | none => .err (.wrap "error decoding block from RPC" .decode)
      | some result =>
        match asObj (jlookup result "result") with
        | none => .err (.msg "invalid or missing result field in /block API response")
        | some resultResult =>
          match asObj (jlookup resultResult "block_id") with
          | none => .panicked
          | some blockIDObj =>
            match asStr (jlookup blockIDObj "hash") with
            | none => .err (.msg "error extracting block_id from /block response")
            | some blockID =>
              match asObj (jlookup resultResult "block") with
              | none => .panicked
              | some blockObj =>
                match asObj (jlookup blockObj "header") with
                | none => .panicked
                | some header =>
                  match asStr (jlookup header "proposer_address") with
                  | none => .err (.msg "error extracting proposer_address from /block response")
                  | some proposer =>
                    .ok { height := 0
                          blockID := blockID
                          numTransactions := 0
                          proposer := proposer
                          createdAt := 0
                          updatedAt := 0
                          deletedAt := none
                          details := none },
    [.blockCall height] )

/-- Transaction count from the txs_results value: the length of a JSON list, 0
for an explicit JSON null, and a failure for any other shape (the default arm
of the Go type switch). -/
def numTxOf : Json → Option Int
  | .arr xs => some (xs.length : Int)
  | .null => some 0
  | _ => none

/-- Indexer.getBlockResults (the /block_results endpoint): decodes the result
envelope, delegates to getBlock for identity, then counts txs_results. The
composed record carries only height, block id, proposer and transaction count;
every other field keeps its Go zero value. -/
def getBlockResults (e : Env) (height : Int) : Res BlockDetails × List UpCall :=
  match e.blockResults height with
  | .fail => (.err (.wrap "error fetching block results" .transport), [.blockResultsCall height])
  | .resp r =>
    match decodeObj r.body with
    | none => (.err (.wrap "error decoding block results" .decode), [.blockResultsCall height])
    | some result =>
      match asObj (jlookup result "result") with
      | none =>
        (.err (.msg "invalid or missing result field in /block_results API response"),
         [.blockResultsCall height])
      | some resultResult =>
        match getBlock e height with
        | (.panicked, calls) => (.panicked, .blockResultsCall height :: calls)
        | (.err er, calls) =>
          (.err (.wrap "error fetching block_id from /block" er),
           .blockResultsCall height :: calls)
        | (.ok blockData, calls) =>
          match jlookup resultResult "txs_results" with
          | none =>
            (.err (.msg "error extracting txs_results from block results"),
             .blockResultsCall height :: calls)
          | some txsResults =>
            match numTxOf txsResults with
            | none =>
              (.err (.msg "unexpected type for txs_results"),
               .blockResultsCall height :: calls)
            | some n =>
              (.ok { height := height
                     blockID := blockData.blockID
                     numTransactions := n
                     proposer := blockData.proposer
                     createdAt := 0
                     updatedAt := 0
                     deletedAt := none
                     details := none },
               .blockResultsCall height :: calls)

/-- One INSERT ... ON CONFLICT statement handed to the database by the
asynchronous store goroutine: the bound parameters, with `time` the single
currentTime value bound to both created_at and updated_at. -/
structure UpsertRow where
  height : Int
  blockID : String
  proposer : String
  numTransactions : Int
  details : Option Json
  time : Int

/-- Result of one FetchAndStoreBlockDetails call: the returned value, the
upstream calls issued, and the upsert statements handed to the database. -/
structure FetchOut where
  result : Res BlockDetails
  upstream : List UpCall
  upserts : List UpsertRow

/-- Indexer.FetchAndStoreBlockDetails: on any getBlockResults failure it
returns the wrapped error and spawns nothing; on success it returns the record
and spawns the fire-and-forget goroutine that issues exactly one upsert with
currentTime for both timestamps. -/
def FetchAndStoreBlockDetails (e : Env) (now height : Int) : FetchOut :=
  match getBlockResults e height with
  | (.ok bd, calls) =>
    { result := .ok bd
      upstream := calls
      upserts := [{ height := height
                    blockID := bd.blockID
                    proposer := bd.proposer
                    numTransactions := bd.numTransactions
                    details := bd.details
                    time := now }] }
  | (.err er, calls) =>
    { result := .err (.wrap "error getting block details" er)
      upstream := calls
      upserts := [] }
  | (.panicked, calls) => { result := .panicked, upstream := calls, upserts := [] }

/-- Result of one GetBlockDetails call: the returned value, the upstream calls
issued, the number of FetchAndStoreBlockDetails invocations, and the upsert
statements handed to the database. -/
structure AccessorOut where
  result : Res BlockDetails
  upstream : List UpCall
  fetchInvocations : Nat
  upserts : List UpsertRow

/-- Indexer.GetBlockDetails: the cache-aside accessor. A database hit is
returned as scanned; sql.ErrNoRows delegates to FetchAndStoreBlockDetails; any
other lookup error is wrapped and returned with no fetch. -/
def GetBlockDetails (e : Env) (now height : Int) : AccessorOut :=
  match e.dbLookup height with
  | .found r =>
    { result := .ok (rowToDetails r), upstream := [], fetchInvocations := 0, upserts := [] }
  | .noRows =>
    match FetchAndStoreBlockDetails e now height with
    | { result := .ok bd, upstream := calls, upserts := ups } =>
      { result := .ok bd, upstream := calls, fetchInvocations := 1, upserts := ups }
    | { result := .err er, upstream := calls, upserts := ups } =>
      { result := .err (.wrap "error fetching and storing block details" er)
        upstream := calls
        fetchInvocations := 1
        upserts := ups }
    | { result := .panicked, upstream := calls, upserts := ups } =>
      { result := .panicked, upstream := calls, fetchInvocations := 1, upserts := ups }
  | .failure =>
    { result := .err (.wrap "error fetching block details from database" .sqlOther)
      upstream := []
      fetchInvocations := 0
      upserts := [] }

/-- Semantics of the INSERT ... ON CONFLICT (block_height) DO UPDATE statement
in FetchAndStoreBlockDetails: a fresh row gets both timestamps and a NULL
deleted_at; on conflict only block_id, proposer_address, num_transactions,
details and updated_at are overwritten. -/
def upsert (t : Table) (r : UpsertRow) : Table :=
  fun h =>
    if h = r.height then
      match t r.height with
      | none =>
        some { blockHeight := r.height
               blockID := r.blockID
               proposer := r.proposer
               numTransactions := r.numTransactions
               details := r.details
               createdAt := r.time
               updatedAt := r.time
               deletedAt := none }
      | some old =>
        some { old with
               blockID := r.blockID
               proposer := r.proposer
               numTransactions := r.numTransactions
               details := r.details
               updatedAt := r.time }
    else t h

/-- Apply a list of upsert statements in order. -/
def applyUpserts (t : Table) (rs : List UpsertRow) : Table :=
  rs.foldl upsert t

/-- The latestHeight variable of StartIndexing after the tip call: the resolved
tip on success, and the Go zero value 0 when GetLatestBlockHeightFromREST
returned an error (the error is only logged). -/
def resolvedTip (e : Env) : Int :=
  match (GetLatestBlockHeightFromREST e).1 with
  | .ok h => h
  | _ => 0

/-- The maxBlockHeight variable of StartIndexing after the tip merge: raised to
the freshly resolved tip exactly when the tip is larger. -/
def effectiveMax (e : Env) (maxBlockHeight : Int) : Int :=
  if resolvedTip e > maxBlockHeight then resolvedTip e else maxBlockHeight

/-- The heights of the scheduling loop for currentHeight from maxH down to
minH: the descending enumeration maxH, maxH - 1, ..., minH (empty when
maxH < minH). -/
def descRange (minH maxH : Int) : List Int :=
  (List.range (maxH + 1 - minH).toNat).map (fun i : Nat => maxH - (i : Int))

/-- The heights for which one StartIndexing invocation schedules a fetch unit,
in scheduling order. -/
def scheduledHeights (e : Env) (minH maxH : Int) : List Int :=
  descRange minH (effectiveMax e maxH)

/-- Indexer.StartIndexing as observed after wg.Wait(): one completed fetch unit
per scheduled height, each recorded with its outcome; a failing unit only
contributes its error entry and never removes other units. -/
def StartIndexing (e : Env) (now minH maxH : Int) : List (Int × FetchOut) :=
  (scheduledHeights e minH maxH).map fun h => (h, FetchAndStoreBlockDetails e now h)

/-- Fine-grained state of one StartIndexing sweep: heights not yet reached by
the scheduling loop, the height whose semaphore slot the loop has acquired but
whose goroutine is not yet running, the heights of the running fetch units,
and the number of filled slots of the 100-capacity semaphore channel. -/
structure ScanState where
  pending : List Int
  staged : Option Int
  active : List Int
  sem : Nat

/-- Interleaved small-step semantics of the StartIndexing loop body and its
goroutines. `acquire` is the send on the semaphore channel for the next
height: it blocks unless a slot is free (sem < 100). `launch` is the go
statement for the staged height. `finished` is one goroutine completing: the
deferred receive frees its slot. -/
inductive ScanStep : ScanState → ScanState → Prop where
  | acquire (h : Int) (rest a : List Int) (s : Nat) :
      s < 100 →
      ScanStep ⟨h :: rest, none, a, s⟩ ⟨rest, some h, a, s + 1⟩
  | launch (h : Int) (p a : List Int) (s : Nat) :
      ScanStep ⟨p, some h, a, s⟩ ⟨p, none, h :: a, s⟩
  | finished (h : Int) (p : List Int) (st : Option Int) (pre post : List Int) (s : Nat) :
      ScanStep ⟨p, st, pre ++ h :: post, s + 1⟩ ⟨p, st, pre ++ post, s⟩

/-- The state in which StartIndexing enters its scheduling loop: every height
of the merged range pending, nothing staged or running, semaphore empty. -/
def initState (e : Env) (minH maxH : Int) : ScanState :=
  ⟨scheduledHeights e minH maxH, none, [], 0⟩

/-- States a sweep can be in: reflexive-transitive closure of the steps. -/
def ReachableScan (e : Env) (minH maxH : Int) (s : ScanState) : Prop :=
  Relation.ReflTransGen ScanStep (initState e minH maxH) s

/-- Slot accounting invariant of the sweep: every staged or running unit holds
one semaphore slot, and the semaphore never holds more than its capacity. -/
def SlotInv (s : ScanState) : Prop :=
  s.active.length + (if s.staged.isSome then 1 else 0) ≤ s.sem ∧ s.sem ≤ 100

theorem slotInv_init (e : Env) (minH maxH : Int) : SlotInv (initState e minH maxH) := by
  constructor <;> simp [initState]

theorem slotInv_step {s t : ScanState} (hstep : ScanStep s t) (hinv : SlotInv s) :
    SlotInv t := by
  rcases hinv with ⟨h1, h2⟩
  cases hstep <;> simp_all [SlotInv] <;> omega

theorem slotInv_reachable {e : Env} {minH maxH : Int} {s : ScanState}
    (hr : ReachableScan e minH maxH s) : SlotInv s := by
  induction hr with
  | refl => exact slotInv_init e minH maxH
  | tail _ hstep ih => exact slotInv_step hstep ih

/-- The composed record of getBlockResults always carries the requested
height. -/
theorem getBlockResults_height (e : Env) (h : Int) (bd : BlockDetails)
    (hok : (getBlockResults e h).1 = .ok bd) : bd.height = h := by
  unfold getBlockResults at hok
  repeat' split at hok
  all_goals simp_all
  rw [← hok]

/-- Membership in the scheduling enumeration is exactly the closed range. -/
theorem mem_descRange {a b h : Int} : h ∈ descRange a b ↔ a ≤ h ∧ h ≤ b := by
  unfold descRange
  simp only [List.mem_map, List.mem_range]
  constructor
  · rintro ⟨i, hi, rfl⟩
    constructor <;> omega
  · rintro ⟨h1, h2⟩
    exact ⟨(b - h).toNat, by omega, by omega⟩

/-- The scheduling enumeration visits no height twice. -/
theorem nodup_descRange (a b : Int) : (descRange a b).Nodup := by
  unfold descRange
  apply List.Nodup.map
  · intro i j hij
    have hij2 : b - (i : Int) = b - (j : Int) := hij
    omega
  · exact List.nodup_range _

/-- The scheduling enumeration is strictly descending. -/
theorem pairwise_descRange (a b : Int) : (descRange a b).Pairwise (· > ·) := by
  unfold descRange
  refine List.pairwise_map.mpr (List.Pairwise.imp ?_ (List.pairwise_lt_range _))
  intro i j hij
  show b - (i : Int) > b - (j : Int)
  omega

/-- Each height of the closed range is scheduled exactly once, heights outside
it never. -/
theorem count_descRange (a b h : Int) :
    (descRange a b).count h = if a ≤ h ∧ h ≤ b then 1 else 0 := by
  split
  · exact List.count_eq_one_of_mem (nodup_descRange a b) (mem_descRange.mpr (by assumption))
  · exact List.count_eq_zero_of_not_mem (fun hm => (by assumption : ¬_) (mem_descRange.mp hm))

/-- A successful FetchAndStoreBlockDetails call reflects a successful
getBlockResults composition of the same record. -/
theorem fetchAndStore_ok (e : Env) (now h : Int) (bd : BlockDetails)
    (hok : (FetchAndStoreBlockDetails e now h).result = .ok bd) :
    (getBlockResults e h).1 = .ok bd := by
  unfold FetchAndStoreBlockDetails at hok
  rcases hg : getBlockResults e h with ⟨res, calls⟩
  rw [hg] at hok
  cases res <;> simp_all

/-- The upsert statements of one FetchAndStoreBlockDetails call: exactly one on
success, none otherwise, and the call result never depends on the clock. -/
theorem fetchAndStore_upserts (e : Env) (now h : Int) :
    (FetchAndStoreBlockDetails e now h).upserts =
      (match (getBlockResults e h).1 with
       | .ok bd => [{ height := h, blockID := bd.blockID, proposer := bd.proposer,
                      numTransactions := bd.numTransactions, details := bd.details,
                      time := now }]
       | _ => []) := by
  unfold FetchAndStoreBlockDetails
  rcases hg : getBlockResults e h with ⟨res, calls⟩
  cases res <;> simp [hg]

/-- The value FetchAndStoreBlockDetails returns is a pure function of the
upstream responses: the clock only enters the spawned upsert. -/
theorem fetchAndStore_result_eq (e : Env) (now h : Int) :
    (FetchAndStoreBlockDetails e now h).result =
      (match (getBlockResults e h).1 with
       | .ok bd => .ok bd
       | .err er => .err (.wrap "error getting block details" er)
       | .panicked => .panicked) := by
  unfold FetchAndStoreBlockDetails
  rcases hg : getBlockResults e h with ⟨res, calls⟩
  cases res <;> simp [hg]

/-- When the /block call itself fails at the transport level, getBlockResults
can only fail. -/
theorem getBlockResults_err_of_blockFail (e : Env) (h : Int) (hb : e.block h = .fail) :
    ∃ c, (getBlockResults e h).1 = .err c := by
  have hgb : getBlock e h =
      (.err (.wrap "error fetching block from RPC" .transport), [.blockCall h]) := by
    unfold getBlock
    rw [hb]
  unfold getBlockResults
  simp only [hgb]
  repeat' split
  all_goals exact ⟨_, rfl⟩

/-- A non-failing transaction-count extraction is non-negative. -/
theorem numTxOf_nonneg (j : Json) (n : Int) (hn : numTxOf j = some n) : 0 ≤ n := by
  cases j <;> simp [numTxOf] at hn <;> omega

/-- On success, every field of the getBlockResults record other than height,
block id, proposer and transaction count keeps its Go zero value. -/
theorem getBlockResults_zeroFields (e : Env) (h : Int) (bd : BlockDetails)
    (hok : (getBlockResults e h).1 = .ok bd) :
    bd.createdAt = 0 ∧ bd.updatedAt = 0 ∧ bd.deletedAt = none ∧ bd.details = none := by
  unfold getBlockResults at hok
  repeat' split at hok
  all_goals simp_all
  rw [← hok]
  simp

/-- An environment in which every upstream endpoint is unreachable and the
table is empty. -/
def envDown : Env :=
  { status := .fail
    latestBlock := .fail
    blockResults := fun _ => .fail
    block := fun _ => .fail
    dbLookup := fun _ => .noRows }

/-- A /block_results body with two transaction results. -/
def goodResultsBody : Json :=
  .obj [("result", .obj [("txs_results", .arr [.str "t1", .str "t2"])])]

/-- A /block body with hash ABC and proposer P1. -/
def goodBlockBody : Json :=
  .obj [("result", .obj
    [("block_id", .obj [("hash", .str "ABC")]),
     ("block", .obj [("header", .obj [("proposer_address", .str "P1")])])])]

/-- A REST latest-block body reporting height 20. -/
def goodRestBody : Json :=
  .obj [("block", .obj [("header", .obj [("height", .str "20")])])]

/-- A status body reporting height 20. -/
def goodStatusBody : Json :=
  .obj [("result", .obj [("sync_info", .obj [("latest_block_height", .str "20")])])]

/-- An environment in which every upstream call succeeds with the synthetic
data of the spec scenario (two transactions, hash ABC, proposer P1, tip 20)
and every height misses in the table. -/
def envGood : Env :=
  { status := .resp { status := 200, body := some goodStatusBody }
    latestBlock := .resp { status := 200, body := some goodRestBody }
    blockResults := fun _ => .resp { status := 200, body := some goodResultsBody }
    block := fun _ => .resp { status := 200, body := some goodBlockBody }
    dbLookup := fun _ => .noRows }

/-- The record envGood makes the fetch pipeline compose for a height. -/
def goodRecord (h : Int) : BlockDetails :=
  { height := h
    blockID := "ABC"
    numTransactions := 2
    proposer := "P1"
    createdAt := 0
    updatedAt := 0
    deletedAt := none
    details := none }

/-- A stored row used to exercise the cache-hit path. -/
def hitRow : Row :=
  { blockHeight := 14041989
    blockID := "E1677"
    proposer := "032B5"
    numTransactions := 0
    details := none
    createdAt := 3
    updatedAt := 4
    deletedAt := none }

/-- An environment whose table holds hitRow at its height and misses
elsewhere, with all upstream endpoints down. -/
def envHit : Env :=
  { envDown with
    dbLookup := fun h => if h = 14041989 then .found hitRow else .noRows }

/-- The empty table. -/
def emptyTable : Table := fun _ => none

/-- A sample upsert statement. -/
def sampleUp : UpsertRow :=
  { height := 10, blockID := "ABC", proposer := "P1", numTransactions := 2,
    details := none, time := 1 }

/-- A failing getBlockResults composition makes FetchAndStoreBlockDetails
return the wrapped cause and hand nothing to the database. -/
theorem fetchAndStore_err (e : Env) (now h : Int) (c : GoErr)
    (hc : (getBlockResults e h).1 = .err c) :
    (FetchAndStoreBlockDetails e now h).result = .err (.wrap "error getting block details" c) ∧
    (FetchAndStoreBlockDetails e now h).upserts = [] := by
  unfold FetchAndStoreBlockDetails
  rcases hg : getBlockResults e h with ⟨res, calls⟩
  rw [hg] at hc
  cases res <;> simp_all

/-- C1: for every height, a failure of either upstream call of the fetch
pipeline (the block-results call or the block-identity call) makes
FetchAndStoreBlockDetails return an error wrapping the cause, return no
record, and issue no upsert for that height. -/
theorem claim_C1 (e : Env) (now h : Int) :
    (∀ c, (getBlockResults e h).1 = .err c →
      (FetchAndStoreBlockDetails e now h).result =
        .err (.wrap "error getting block details" c) ∧
      (FetchAndStoreBlockDetails e now h).upserts = []) ∧
    (e.blockResults h = .fail →
      ∃ c, (FetchAndStoreBlockDetails e now h).result = .err c ∧
        (FetchAndStoreBlockDetails e now h).upserts = []) ∧
    (e.block h = .fail →
      ∃ c, (FetchAndStoreBlockDetails e now h).result = .err c ∧
        (FetchAndStoreBlockDetails e now h).upserts = []) := by
  refine ⟨fetchAndStore_err e now h, ?_, ?_⟩
  · intro hbf
    have hge : (getBlockResults e h).1 = .err (.wrap "error fetching block results" .transport) := by
      unfold getBlockResults
      rw [hbf]
    obtain ⟨h1, h2⟩ := fetchAndStore_err e now h _ hge
    exact ⟨_, h1, h2⟩
  · intro hbf
    obtain ⟨c, hc⟩ := getBlockResults_err_of_blockFail e h hbf
    obtain ⟨h1, h2⟩ := fetchAndStore_err e now h c hc
    exact ⟨_, h1, h2⟩

/-- C1 witness: with the upstream down, a concrete fetch at height 15 yields
the wrapped transport error and no upsert. -/
theorem claim_C1_wit :
    (FetchAndStoreBlockDetails envDown 7 15).result =
      .err (.wrap "error getting block details"
        (.wrap "error fetching block results" .transport)) ∧
    (FetchAndStoreBlockDetails envDown 7 15).upserts = [] :=
  (claim_C1 envDown 7 15).1 _ rfl

/-- C2: a height present in the table is answered from the table, the scanned
record is field-for-field the stored row, and no upstream call, no fetch
pipeline invocation and no upsert happens. -/
theorem claim_C2 (e : Env) (now h : Int) (r : Row) (hfound : e.dbLookup h = .found r) :
    (GetBlockDetails e now h).result = .ok (rowToDetails r) ∧
    (GetBlockDetails e now h).upstream = [] ∧
    (GetBlockDetails e now h).fetchInvocations = 0 ∧
    (GetBlockDetails e now h).upserts = [] ∧
    (rowToDetails r).height = r.blockHeight ∧
    (rowToDetails r).blockID = r.blockID ∧
    (rowToDetails r).proposer = r.proposer ∧
    (rowToDetails r).numTransactions = r.numTransactions ∧
    (rowToDetails r).createdAt = r.createdAt ∧
    (rowToDetails r).updatedAt = r.updatedAt ∧
    (rowToDetails r).deletedAt = r.deletedAt ∧
    (rowToDetails r).details = r.details := by
  unfold GetBlockDetails
  rw [hfound]
  exact ⟨rfl, rfl, rfl, rfl, rfl, rfl, rfl, rfl, rfl, rfl, rfl, rfl⟩

/-- C2 witness: the stored row at height 14041989 is returned with zero
upstream traffic. -/
theorem claim_C2_wit :
    (GetBlockDetails envHit 9 14041989).result = .ok (rowToDetails hitRow) ∧
    (GetBlockDetails envHit 9 14041989).upstream = [] :=
  ⟨((claim_C2 envHit 9 14041989 hitRow rfl).1),
   ((claim_C2 envHit 9 14041989 hitRow rfl).2.1)⟩

/-- C3: a miss (the distinguished no-rows outcome) triggers exactly one fetch
pipeline invocation and any successful answer carries the requested height; a
non-miss lookup failure is surfaced as the wrapped storage error with no fetch
pipeline invocation and no upstream call. -/
theorem claim_C3 (e : Env) (now h : Int) :
    (e.dbLookup h = .noRows →
      (GetBlockDetails e now h).fetchInvocations = 1 ∧
      ∀ bd, (GetBlockDetails e now h).result = .ok bd → bd.height = h) ∧
    (e.dbLookup h = .failure →
      (GetBlockDetails e now h).result =
        .err (.wrap "error fetching block details from database" .sqlOther) ∧
      (GetBlockDetails e now h).fetchInvocations = 0 ∧
      (GetBlockDetails e now h).upstream = []) := by
  constructor
  · intro hnr
    constructor
    · unfold GetBlockDetails
      rw [hnr]
      rcases hf : FetchAndStoreBlockDetails e now h with ⟨res, calls, ups⟩
      cases res <;> simp
    · intro bd hbd
      have hok : (FetchAndStoreBlockDetails e now h).result = .ok bd := by
        unfold GetBlockDetails at hbd
        rw [hnr] at hbd
        rcases hf : FetchAndStoreBlockDetails e now h with ⟨res, calls, ups⟩
        rw [hf] at hbd
        cases res <;> simp_all
      exact getBlockResults_height e h bd (fetchAndStore_ok e now h bd hok)
  · intro hfail
    unfold GetBlockDetails
    rw [hfail]
    exact ⟨rfl, rfl, rfl⟩

/-- C3 witness: a miss at height 10 in a healthy environment runs the fetch
pipeline once and the composed record carries height 10. -/
theorem claim_C3_wit :
    envGood.dbLookup 10 = .noRows ∧
    (GetBlockDetails envGood 0 10).fetchInvocations = 1 ∧
    (goodRecord 10).height = 10 :=
  ⟨rfl, ((claim_C3 envGood 0 10).1 rfl).1, ((claim_C3 envGood 0 10).1 rfl).2 (goodRecord 10) rfl⟩

/-- The row an upsert inserts when no row exists for the height: both
timestamps get the statement time. -/
def freshRow (u : UpsertRow) : Row :=
  { blockHeight := u.height
    blockID := u.blockID
    proposer := u.proposer
    numTransactions := u.numTransactions
    details := u.details
    createdAt := u.time
    updatedAt := u.time
    deletedAt := none }

/-- The row an upsert leaves on height conflict: mutable fields and updated_at
overwritten, created_at and deleted_at kept. -/
def mergeRow (old : Row) (u : UpsertRow) : Row :=
  { old with
    blockID := u.blockID
    proposer := u.proposer
    numTransactions := u.numTransactions
    details := u.details
    updatedAt := u.time }

/-- The upsert at its own key: insert when absent, merge when present. -/
theorem upsert_point (t : Table) (u : UpsertRow) :
    upsert t u u.height =
      some (match t u.height with | none => freshRow u | some old => mergeRow old u) := by
  unfold upsert freshRow mergeRow
  cases t u.height <;> simp

/-- The upsert leaves every other key untouched. -/
theorem upsert_frame (t : Table) (u : UpsertRow) (h : Int) (hne : h ≠ u.height) :
    upsert t u h = t h := by
  unfold upsert
  simp [hne]

/-- Two upserts at the same key, the second no earlier than the first: the
created timestamp of the surviving row is fixed and the updated timestamp does
not decrease. -/
theorem upsert_twice_point (t : Table) (u1 u2 : UpsertRow) (h : Int)
    (h1h : u1.height = h) (h2h : u2.height = h) (hle : u1.time ≤ u2.time)
    (r1 r2 : Row) (e1 : upsert t u1 h = some r1) (e2 : upsert (upsert t u1) u2 h = some r2) :
    r2.createdAt = r1.createdAt ∧ r1.updatedAt ≤ r2.updatedAt := by
  subst h1h
  rw [upsert_point t u1] at e1
  have e2p : upsert (upsert t u1) u2 u2.height = some r2 := by rw [h2h]; exact e2
  rw [upsert_point (upsert t u1) u2] at e2p
  rw [h2h] at e2p
  rw [upsert_point t u1] at e2p
  cases hth : t u1.height with
  | none =>
    rw [hth] at e1 e2p
    simp at e1 e2p
    rw [← e1, ← e2p]
    simp [freshRow, mergeRow]
    exact hle
  | some old =>
    rw [hth] at e1 e2p
    simp at e1 e2p
    rw [← e1, ← e2p]
    simp [freshRow, mergeRow]
    exact hle

/-- C4: the upsert inserts a fresh row with both timestamps when the height is
absent and, on conflict, overwrites exactly the mutable fields and the updated
timestamp while keeping the created timestamp (and the soft-delete timestamp
and key) of the existing row; hence two fetch pipeline runs for one height at
non-decreasing clock readings leave the created timestamp fixed and the
updated timestamp non-decreasing. -/
theorem claim_C4 (t : Table) (r : UpsertRow) (e : Env) (h now1 now2 : Int)
    (hle : now1 ≤ now2) :
    (t r.height = none → upsert t r r.height = some (freshRow r) ∧
      (freshRow r).createdAt = r.time ∧ (freshRow r).updatedAt = r.time ∧
      (freshRow r).deletedAt = none) ∧
    (∀ old, t r.height = some old →
      upsert t r r.height = some (mergeRow old r) ∧
      (mergeRow old r).createdAt = old.createdAt ∧
      (mergeRow old r).deletedAt = old.deletedAt ∧
      (mergeRow old r).blockHeight = old.blockHeight ∧
      (mergeRow old r).updatedAt = r.time ∧
      (mergeRow old r).blockID = r.blockID ∧
      (mergeRow old r).proposer = r.proposer ∧
      (mergeRow old r).numTransactions = r.numTransactions ∧
      (mergeRow old r).details = r.details) ∧
    (∀ r1 r2,
      applyUpserts t (FetchAndStoreBlockDetails e now1 h).upserts h = some r1 →
      applyUpserts (applyUpserts t (FetchAndStoreBlockDetails e now1 h).upserts)
          (FetchAndStoreBlockDetails e now2 h).upserts h = some r2 →
      r2.createdAt = r1.createdAt ∧ r1.updatedAt ≤ r2.updatedAt) := by
  refine ⟨?_, ?_, ?_⟩
  · intro hnone
    rw [upsert_point t r, hnone]
    exact ⟨rfl, rfl, rfl, rfl⟩
  · intro old hold
    rw [upsert_point t r, hold]
    exact ⟨rfl, rfl, rfl, rfl, rfl, rfl, rfl, rfl, rfl⟩
  · intro r1 r2 e1 e2
    have hu1 := fetchAndStore_upserts e now1 h
    have hu2 := fetchAndStore_upserts e now2 h
    cases hg : (getBlockResults e h).1 with
    | ok bd =>
      rw [hg] at hu1 hu2
      rw [hu1] at e1 e2
      rw [hu2] at e2
      simp only [applyUpserts, List.foldl] at e1 e2
      exact upsert_twice_point t _ _ h rfl rfl hle r1 r2 e1 e2
    | err er =>
      rw [hg] at hu1 hu2
      rw [hu1] at e1 e2
      rw [hu2] at e2
      simp only [applyUpserts, List.foldl] at e1 e2
      rw [e1] at e2
      cases e2
      exact ⟨rfl, le_refl _⟩
    | panicked =>
      rw [hg] at hu1 hu2
      rw [hu1] at e1 e2
      rw [hu2] at e2
      simp only [applyUpserts, List.foldl] at e1 e2
      rw [e1] at e2
      cases e2
      exact ⟨rfl, le_refl _⟩

/-- C4 witness: inserting into the empty table creates the row with both
timestamps equal to the statement time and no soft-delete. -/
theorem claim_C4_wit :
    emptyTable sampleUp.height = none ∧
    upsert emptyTable sampleUp sampleUp.height = some (freshRow sampleUp) ∧
    (freshRow sampleUp).createdAt = sampleUp.time :=
  ⟨rfl, ((claim_C4 emptyTable sampleUp envGood 10 1 2 (by decide)).1 rfl).1,
   ((claim_C4 emptyTable sampleUp envGood 10 1 2 (by decide)).1 rfl).2.1⟩

/-- C5: one StartIndexing invocation on a range with minHeight at most
maxHeight schedules one fetch unit for every height between minHeight and the
effective maximum, each height exactly once, in strictly descending order, and
the completed sweep holds one finished unit per scheduled height whatever each
unit's outcome is: a failing unit never removes another unit. -/
theorem claim_C5 (e : Env) (now minH maxH : Int) (hle : minH ≤ maxH) :
    (∀ h, (scheduledHeights e minH maxH).count h =
        if minH ≤ h ∧ h ≤ effectiveMax e maxH then 1 else 0) ∧
    (scheduledHeights e minH maxH).Pairwise (· > ·) ∧
    (StartIndexing e now minH maxH).map Prod.fst = scheduledHeights e minH maxH ∧
    minH ≤ effectiveMax e maxH := by
  refine ⟨fun h => count_descRange _ _ _, pairwise_descRange _ _, ?_, ?_⟩
  · unfold StartIndexing
    rw [List.map_map]
    exact List.map_id _
  · unfold effectiveMax
    split <;> omega

/-- C5 witness: sweeping 3..5 against a dead tip endpoint schedules 5, 4, 3
once each and completes all three units. -/
theorem claim_C5_wit :
    (scheduledHeights envDown 3 5).count 4 = 1 ∧
    (StartIndexing envDown 0 3 5).map Prod.fst = scheduledHeights envDown 3 5 ∧
    (3 : Int) ≤ effectiveMax envDown 5 := by
  refine ⟨?_, (claim_C5 envDown 0 3 5 (by decide)).2.2.1, (claim_C5 envDown 0 3 5 (by decide)).2.2.2⟩
  rw [(claim_C5 envDown 0 3 5 (by decide)).1 4]
  decide

/-- C6: in every state a sweep can reach, the number of simultaneously active
fetch units, each holding one slot of the 100-capacity admission channel, is
at most 100, and the channel is never over-filled; a unit that would exceed
the cap cannot take the acquire step until a finish step frees a slot. -/
theorem claim_C6 (e : Env) (minH maxH : Int) (s : ScanState)
    (hr : ReachableScan e minH maxH s) :
    s.active.length ≤ 100 ∧ s.sem ≤ 100 := by
  obtain ⟨h1, h2⟩ := slotInv_reachable hr
  exact ⟨by omega, h2⟩

/-- C6 witness: after the first acquire step of a sweep over 1..3 the reached
state has one held slot and at most 100 active units. -/
theorem claim_C6_wit :
    ReachableScan envDown 1 3 ⟨[2, 1], some 3, [], 1⟩ ∧
    (ScanState.mk [2, 1] (some 3) [] 1).active.length ≤ 100 := by
  have hreach : ReachableScan envDown 1 3 ⟨[2, 1], some 3, [], 1⟩ := by
    have hstep : ScanStep ⟨[3, 2, 1], none, [], 0⟩ ⟨[2, 1], some 3, [], 1⟩ :=
      ScanStep.acquire 3 [2, 1] [] 0 (by omega)
    exact Relation.ReflTransGen.single hstep
  exact ⟨hreach, (claim_C6 envDown 1 3 _ hreach).1⟩

/-- C7: when the tip call at the start of a scan succeeds with tip T, the
effective upper bound of the scan over configured ceiling C is max C T:
raised to T exactly when T exceeds C and unchanged otherwise. -/
theorem claim_C7 (e : Env) (C T : Int)
    (htip : (GetLatestBlockHeightFromREST e).1 = .ok T) :
    effectiveMax e C = max C T ∧
    (T > C → effectiveMax e C = T) ∧
    (T ≤ C → effectiveMax e C = C) := by
  have hrt : resolvedTip e = T := by
    unfold resolvedTip
    rw [htip]
  unfold effectiveMax
  rw [hrt]
  refine ⟨?_, fun hgt => if_pos hgt, fun hle => if_neg (by omega)⟩
  by_cases hc : T > C
  · rw [if_pos hc]
    exact (max_eq_right (le_of_lt hc)).symm
  · rw [if_neg hc]
    exact (max_eq_left (by omega)).symm

/-- C7 witness: with the REST endpoint reporting tip 20, a ceiling of 5 is
raised to 20 and a ceiling of 100 is kept. -/
theorem claim_C7_wit :
    (GetLatestBlockHeightFromREST envGood).1 = .ok 20 ∧
    effectiveMax envGood 5 = max 5 20 ∧
    effectiveMax envGood 100 = max 100 20 :=
  ⟨rfl, (claim_C7 envGood 5 20 rfl).1, (claim_C7 envGood 100 20 rfl).1⟩

/-- A record composed by getBlockResults never has a negative transaction
count. -/
theorem getBlockResults_nonneg (e : Env) (h : Int) (bd : BlockDetails)
    (hok : (getBlockResults e h).1 = .ok bd) : 0 ≤ bd.numTransactions := by
  unfold getBlockResults at hok
  repeat' split at hok
  all_goals simp_all
  rename_i txs htxs _ n hn
  have := numTxOf_nonneg txs n hn
  rw [← hok]
  exact this

/-- C9: the transaction count composed (and later stored) by the fetch
pipeline is the length of the txs_results list when the endpoint returns a
list, 0 when the endpoint reports an explicit JSON null, and in every
successful composition it is non-negative and is stored unchanged by the
spawned upsert. -/
theorem claim_C9 (e : Env) (now h : Int) :
    (∀ r result rr blockData calls xs,
      e.blockResults h = .resp r →
      decodeObj r.body = some result →
      asObj (jlookup result "result") = some rr →
      getBlock e h = (.ok blockData, calls) →
      jlookup rr "txs_results" = some (.arr xs) →
      ∃ bd, (getBlockResults e h).1 = .ok bd ∧ bd.numTransactions = (xs.length : Int)) ∧
    (∀ r result rr blockData calls,
      e.blockResults h = .resp r →
      decodeObj r.body = some result →
      asObj (jlookup result "result") = some rr →
      getBlock e h = (.ok blockData, calls) →
      jlookup rr "txs_results" = some .null →
      ∃ bd, (getBlockResults e h).1 = .ok bd ∧ bd.numTransactions = 0) ∧
    (∀ bd, (getBlockResults e h).1 = .ok bd →
      0 ≤ bd.numTransactions ∧
      (FetchAndStoreBlockDetails e now h).upserts =
        [{ height := h, blockID := bd.blockID, proposer := bd.proposer,
           numTransactions := bd.numTransactions, details := bd.details, time := now }]) := by
  refine ⟨?_, ?_, ?_⟩
  · intro r result rr blockData calls xs hbr hd ha hg ht
    unfold getBlockResults
    rw [hbr]
    simp only [hd, ha, hg, ht, numTxOf]
    exact ⟨_, rfl, rfl⟩
  · intro r result rr blockData calls hbr hd ha hg ht
    unfold getBlockResults
    rw [hbr]
    simp only [hd, ha, hg, ht, numTxOf]
    exact ⟨_, rfl, rfl⟩
  · intro bd hok
    refine ⟨getBlockResults_nonneg e h bd hok, ?_⟩
    rw [fetchAndStore_upserts e now h, hok]

/-- C9 witness: two transaction results at height 10 compose and store count
2, a non-negative value. -/
theorem claim_C9_wit :
    (getBlockResults envGood 10).1 = .ok (goodRecord 10) ∧
    (0 : Int) ≤ (goodRecord 10).numTransactions ∧
    (FetchAndStoreBlockDetails envGood 7 10).upserts =
      [{ height := 10, blockID := "ABC", proposer := "P1",
         numTransactions := 2, details := none, time := 7 }] :=
  ⟨rfl, ((claim_C9 envGood 7 10).2.2 (goodRecord 10) rfl).1,
   ((claim_C9 envGood 7 10).2.2 (goodRecord 10) rfl).2⟩

/-- C10: on a successful cache miss the accessor hands back the record exactly
as the fetch pipeline composed it: zero created and updated timestamps, no
soft-delete timestamp, empty details, the requested height; and the returned
value is independent of the clock reading that timestamps the asynchronous
upsert. Populated timestamps can only come from the cache-hit path. -/
theorem claim_C10 (e : Env) (now now2 h : Int) (hmiss : e.dbLookup h = .noRows) :
    (∀ bd, (GetBlockDetails e now h).result = .ok bd →
      bd.createdAt = 0 ∧ bd.updatedAt = 0 ∧ bd.deletedAt = none ∧
      bd.details = none ∧ bd.height = h) ∧
    (GetBlockDetails e now h).result = (GetBlockDetails e now2 h).result := by
  constructor
  · intro bd hbd
    have hok : (FetchAndStoreBlockDetails e now h).result = .ok bd := by
      unfold GetBlockDetails at hbd
      rw [hmiss] at hbd
      rcases hf : FetchAndStoreBlockDetails e now h with ⟨res, calls, ups⟩
      rw [hf] at hbd
      cases res <;> simp_all
    have hgr := fetchAndStore_ok e now h bd hok
    obtain ⟨z1, z2, z3, z4⟩ := getBlockResults_zeroFields e h bd hgr
    exact ⟨z1, z2, z3, z4, getBlockResults_height e h bd hgr⟩
  · unfold GetBlockDetails
    rw [hmiss]
    have h1 := fetchAndStore_result_eq e now h
    have h2 := fetchAndStore_result_eq e now2 h
    rcases hf1 : FetchAndStoreBlockDetails e now h with ⟨res1, c1, u1⟩
    rcases hf2 : FetchAndStoreBlockDetails e now2 h with ⟨res2, c2, u2⟩
    rw [hf1] at h1
    rw [hf2] at h2
    simp only at h1 h2
    have : res1 = res2 := by rw [h1, h2]
    subst this
    cases res1 <;> rfl

/-- C10 witness: the record served for a miss at height 10 has zero
timestamps, no soft-delete, empty details, and does not change when the clock
moves from 7 to 8. -/
theorem claim_C10_wit :
    (goodRecord 10).createdAt = 0 ∧ (goodRecord 10).updatedAt = 0 ∧
    (goodRecord 10).deletedAt = none ∧ (goodRecord 10).details = none ∧
    (goodRecord 10).height = 10 ∧
    (GetBlockDetails envGood 7 10).result = (GetBlockDetails envGood 8 10).result := by
  have hmain := claim_C10 envGood 7 8 10 rfl
  have hfields := hmain.1 (goodRecord 10) rfl
  exact ⟨hfields.1, hfields.2.1, hfields.2.2.1, hfields.2.2.2.1, hfields.2.2.2.2, hmain.2⟩

/-- An environment whose status endpoint answers HTTP 500 with a decodable
JSON error body that carries an empty result envelope. -/
def env500Status : Env :=
  { envDown with
    status := .resp { status := 500, body := some (.obj [("result", .obj [])]) } }

/-- C8 counterexample: the status-endpoint read, served a non-success HTTP
status (500) with a decodable body, returns a FieldMissingError and not a
NetworkError — the operation never examines the status code, so the claim
that each of the two resolver operations fails with a NetworkError on a
non-success HTTP status is false for GetLatestBlockHeight. -/
theorem claim_C8_cex :
    env500Status.status =
      .resp { status := 500, body := some (.obj [("result", .obj [])]) } ∧
    (GetLatestBlockHeight env500Status).1 =
      .err (.fieldMissing "sync_info not found in response") ∧
    isNetworkError (.fieldMissing "sync_info not found in response") = false :=
  ⟨rfl, rfl, rfl⟩

/-- C8 amended: the REST latest-block read fails with a NetworkError on
transport failure or non-success HTTP status; the status read fails with a
NetworkError on transport failure only — it never examines the HTTP status
code, and any failure after a delivered response is a ParseError or a
FieldMissingError (an absent or non-object result envelope panics instead of
returning an error). Both fail with a ParseError on malformed JSON and with a
FieldMissingError when an expected nested field is absent or the
numeric-string height does not parse; neither retries internally, and on
success each returns the parsed integer height. -/
theorem claim_C8_amended (e : Env) :
    (GetLatestBlockHeight e).2 = [.statusCall] ∧
    (GetLatestBlockHeightFromREST e).2 = [.latestBlockCall] ∧
    (e.latestBlock = .fail →
      (GetLatestBlockHeightFromREST e).1 =
        .err (.wrap "error fetching latest block from REST API" .transport) ∧
      isNetworkError (.wrap "error fetching latest block from REST API" .transport) = true) ∧
    (∀ r, e.latestBlock = .resp r → r.status ≠ 200 →
      (GetLatestBlockHeightFromREST e).1 = .err (.badStatus r.status) ∧
      isNetworkError (.badStatus r.status) = true) ∧
    (∀ r, e.latestBlock = .resp r → r.status = 200 → decodeObj r.body = none →
      (GetLatestBlockHeightFromREST e).1 =
        .err (.wrap "error decoding latest block from REST API" .decode) ∧
      isParseError (.wrap "error decoding latest block from REST API" .decode) = true) ∧
    (∀ er, (GetLatestBlockHeightFromREST e).1 = .err er →
      isNetworkError er = true ∨ isParseError er = true ∨ isFieldMissingError er = true) ∧
    (∀ r result bl hd s n, e.latestBlock = .resp r → r.status = 200 →
      decodeObj r.body = some result →
      asObj (jlookup result "block") = some bl →
      asObj (jlookup bl "header") = some hd →
      asStr (jlookup hd "height") = some s →
      parseIntStr s = some n →
      (GetLatestBlockHeightFromREST e).1 = .ok n) ∧
    (e.status = .fail →
      (GetLatestBlockHeight e).1 = .err (.wrap "error fetching status" .transport) ∧
      isNetworkError (.wrap "error fetching status" .transport) = true) ∧
    (∀ r er, e.status = .resp r → (GetLatestBlockHeight e).1 = .err er →
      isNetworkError er = false ∧
      (isParseError er = true ∨ isFieldMissingError er = true)) ∧
    (∀ s1 s2 b,
      (GetLatestBlockHeight { e with status := .resp { status := s1, body := b } }).1 =
      (GetLatestBlockHeight { e with status := .resp { status := s2, body := b } }).1) ∧
    (∀ r, e.status = .resp r → decodeObj r.body = none →
      (GetLatestBlockHeight e).1 = .err (.wrap "error decoding status" .decode)) ∧
    (∀ r result res syncInfo s n, e.status = .resp r →
      decodeObj r.body = some result →
      asObj (jlookup result "result") = some res →
      asObj (jlookup res "sync_info") = some syncInfo →
      asStr (jlookup syncInfo "latest_block_height") = some s →
      parseIntStr s = some n →
      (GetLatestBlockHeight e).1 = .ok n) := by
  refine ⟨rfl, rfl, ?_, ?_, ?_, ?_, ?_, ?_, ?_, ?_, ?_, ?_⟩
  · intro hlf
    unfold GetLatestBlockHeightFromREST
    rw [hlf]
    exact ⟨rfl, rfl⟩
  · intro r hr hne
    unfold GetLatestBlockHeightFromREST
    rw [hr]
    refine ⟨?_, rfl⟩
    simp [hne]
  · intro r hr h200 hd
    unfold GetLatestBlockHeightFromREST
    rw [hr]
    refine ⟨?_, rfl⟩
    simp [h200, hd]
  · intro er her
    unfold GetLatestBlockHeightFromREST at her
    repeat' split at her
    all_goals simp at her
    all_goals subst her
    all_goals simp [isNetworkError, isParseError, isFieldMissingError, rootCause]
  · intro r result bl hd s n hr h200 hdec hb hh hs hp
    unfold GetLatestBlockHeightFromREST
    rw [hr]
    simp [h200, hdec, hb, hh, hs, hp]
  · intro hsf
    unfold GetLatestBlockHeight
    rw [hsf]
    exact ⟨rfl, rfl⟩
  · intro r er hr her
    unfold GetLatestBlockHeight at her
    rw [hr] at her
    simp only [] at her
    repeat' split at her
    all_goals simp at her
    all_goals subst her
    all_goals simp [isNetworkError, isParseError, isFieldMissingError, rootCause]
  · intro s1 s2 b
    rfl
  · intro r hr hd
    unfold GetLatestBlockHeight
    rw [hr]
    simp [hd]
  · intro r result res syncInfo s n hr hdec hres hsync hstr hp
    unfold GetLatestBlockHeight
    rw [hr]
    simp [hdec, hres, hsync, hstr, hp]

/-- C8 witness: in a healthy environment both operations return the parsed
height 20, and with the network down the REST operation fails with the
transport-rooted NetworkError. -/
theorem claim_C8_wit :
    (GetLatestBlockHeight envGood).1 = .ok 20 ∧
    (GetLatestBlockHeightFromREST envGood).1 = .ok 20 ∧
    (GetLatestBlockHeightFromREST envDown).1 =
      .err (.wrap "error fetching latest block from REST API" .transport) ∧
    isNetworkError (.wrap "error fetching latest block from REST API" .transport) = true := by
  obtain ⟨hA, hB, hC, hD, hE, hF, hG, hH, hI, hJ, hK, hL⟩ := claim_C8_amended envGood
  obtain ⟨hA2, hB2, hC2, hrest⟩ := claim_C8_amended envDown
  refine ⟨?_, ?_, (hC2 rfl).1, (hC2 rfl).2⟩
  · exact hL _ _ _ _ "20" 20 rfl rfl rfl rfl rfl rfl
  · exact hG _ _ _ _ "20" 20 rfl rfl rfl rfl rfl rfl rfl

end OmniFlix
